import Mathlib

/-!
# Verification of the Searching-Benchmark-Analysis cost-accounting and evaluation core

Shallow embedding of:
* `src/src/cost_tracking/cost_logger.py` (`CostLogger`, `HybridSearchCostTracker`)
* `src/src/evaluation/accuracy_evaluator.py` (`AccuracyEvaluator`)
* the hybrid search function of `src/run_benchmark.py` (`run_hybrid_search_benchmark`)

Numeric values (Python floats) are modelled as exact rationals `ℚ`; wall-clock
measurements (`time.time()` differences) and backend responses are explicit
input parameters, since they come from the environment.
-/

/-- The three env-loaded rates of `CostLogger.__init__`
(`EMBEDDING_COST_PER_1K`, `VECTOR_DB_COST_PER_QUERY`, `LEXICAL_DB_COST_PER_QUERY`). -/
structure CostConfig where
  embedding_cost_per_1k : ℚ
  vector_db_cost_per_query : ℚ
  lexical_db_cost_per_query : ℚ
deriving DecidableEq

/-- One entry of `CostLogger.cost_logs`: the `"type"` tag plus the magnitude
and `"cost"` fields the code stores (timestamps are environment noise and
carry no information used anywhere). -/
inductive CostEvent where
  | embedding (tokens : ℤ) (cost : ℚ)
  | vector_query (compute_time : ℚ) (cost : ℚ)
  | lexical_query (latency : ℚ) (cost : ℚ)
deriving DecidableEq

/-- The stored `"cost"` field of a log entry. -/
def CostEvent.cost : CostEvent → ℚ
  | .embedding _ c => c
  | .vector_query _ c => c
  | .lexical_query _ c => c

/-- `log["type"] == "embedding"`. -/
def CostEvent.isEmbedding : CostEvent → Bool
  | .embedding _ _ => true
  | _ => false

/-- `log["type"] == "vector_query"`. -/
def CostEvent.isVectorQuery : CostEvent → Bool
  | .vector_query _ _ => true
  | _ => false

/-- `log["type"] == "lexical_query"`. -/
def CostEvent.isLexicalQuery : CostEvent → Bool
  | .lexical_query _ _ => true
  | _ => false

/-- The compute time a log entry contributes to `CostLogger.compute_time`:
only `log_vector_query` adds its argument to that field. -/
def CostEvent.vector_time : CostEvent → ℚ
  | .vector_query t _ => t
  | _ => 0

/-- Mutable state of a `CostLogger` instance. -/
structure CostLogger where
  config : CostConfig
  embedding_calls : ℕ
  vector_queries : ℕ
  lexical_queries : ℕ
  compute_time : ℚ
  cost_logs : List CostEvent
deriving DecidableEq

/-- `CostLogger()` with a given environment configuration. -/
def CostLogger.init (cfg : CostConfig) : CostLogger :=
  { config := cfg
    embedding_calls := 0
    vector_queries := 0
    lexical_queries := 0
    compute_time := 0
    cost_logs := [] }

/-- `CostLogger.log_embedding_call`: increments the counter, appends an
`embedding` event with cost `(tokens / 1000) * embedding_cost_per_1k`,
and returns the cost. -/
def CostLogger.log_embedding_call (l : CostLogger) (tokens : ℤ) : CostLogger × ℚ :=
  let cost := ((tokens : ℚ) / 1000) * l.config.embedding_cost_per_1k
  ({ l with
      embedding_calls := l.embedding_calls + 1
      cost_logs := l.cost_logs ++ [.embedding tokens cost] },
   cost)

/-- `CostLogger.log_vector_query`: increments the counter, adds the compute
time to `compute_time`, appends a `vector_query` event with cost
`vector_db_cost_per_query + compute_time * 0.00001` (the multiplier is a
literal in the source), and returns the cost. -/
def CostLogger.log_vector_query (l : CostLogger) (compute_time : ℚ) : CostLogger × ℚ :=
  let cost := l.config.vector_db_cost_per_query + compute_time * (1 / 100000)
  ({ l with
      vector_queries := l.vector_queries + 1
      compute_time := l.compute_time + compute_time
      cost_logs := l.cost_logs ++ [.vector_query compute_time cost] },
   cost)

/-- `CostLogger.log_lexical_query`: increments the counter, appends a
`lexical_query` event with cost `lexical_db_cost_per_query + latency * 0.000001`
(the multiplier is a literal in the source), and returns the cost.
`latency` is not added to `compute_time`. -/
def CostLogger.log_lexical_query (l : CostLogger) (latency : ℚ) : CostLogger × ℚ :=
  let cost := l.config.lexical_db_cost_per_query + latency * (1 / 1000000)
  ({ l with
      lexical_queries := l.lexical_queries + 1
      cost_logs := l.cost_logs ++ [.lexical_query latency cost] },
   cost)

/-- `CostLogger.get_total_cost`: sum of the stored costs of all log entries. -/
def CostLogger.get_total_cost (l : CostLogger) : ℚ :=
  (l.cost_logs.map CostEvent.cost).sum

/-- The dictionary returned by `CostLogger.get_cost_breakdown`. -/
structure CostBreakdown where
  total_cost : ℚ
  embedding_cost : ℚ
  vector_query_cost : ℚ
  lexical_query_cost : ℚ
  embedding_calls : ℕ
  vector_queries : ℕ
  lexical_queries : ℕ
  total_compute_time : ℚ
deriving DecidableEq

/-- `CostLogger.get_cost_breakdown`: per-kind cost sums filtered from the log,
plus the counters and the accumulated compute time. -/
def CostLogger.get_cost_breakdown (l : CostLogger) : CostBreakdown :=
  { total_cost := l.get_total_cost
    embedding_cost := ((l.cost_logs.filter CostEvent.isEmbedding).map CostEvent.cost).sum
    vector_query_cost := ((l.cost_logs.filter CostEvent.isVectorQuery).map CostEvent.cost).sum
    lexical_query_cost := ((l.cost_logs.filter CostEvent.isLexicalQuery).map CostEvent.cost).sum
    embedding_calls := l.embedding_calls
    vector_queries := l.vector_queries
    lexical_queries := l.lexical_queries
    total_compute_time := l.compute_time }

/-- `CostLogger.reset`: zero every counter and clear the log. -/
def CostLogger.reset (l : CostLogger) : CostLogger :=
  { l with
      embedding_calls := 0
      vector_queries := 0
      lexical_queries := 0
      compute_time := 0
      cost_logs := [] }

/-- One call in a sequence of operations applied to a `CostLogger`
(the spec's `record_embedding` / `record_vector_query` / `record_lexical_query`
are the source's `log_embedding_call` / `log_vector_query` / `log_lexical_query`). -/
inductive LedgerOp where
  | record_embedding (tokens : ℤ)
  | record_vector_query (compute_time : ℚ)
  | record_lexical_query (latency : ℚ)
  | reset
deriving DecidableEq

/-- State transition of one ledger call. -/
def CostLogger.apply : CostLogger → LedgerOp → CostLogger
  | l, .record_embedding t => (l.log_embedding_call t).1
  | l, .record_vector_query t => (l.log_vector_query t).1
  | l, .record_lexical_query t => (l.log_lexical_query t).1
  | l, .reset => l.reset

/-- Run a whole sequence of ledger calls. -/
def CostLogger.applyOps (l : CostLogger) (ops : List LedgerOp) : CostLogger :=
  ops.foldl CostLogger.apply l

lemma sum_cost_partition (logs : List CostEvent) :
    (logs.map CostEvent.cost).sum =
      ((logs.filter CostEvent.isEmbedding).map CostEvent.cost).sum +
      ((logs.filter CostEvent.isVectorQuery).map CostEvent.cost).sum +
      ((logs.filter CostEvent.isLexicalQuery).map CostEvent.cost).sum := by
  induction logs with
  | nil => simp
  | cons e rest ih =>
    cases e <;>
      simp [CostEvent.isEmbedding, CostEvent.isVectorQuery, CostEvent.isLexicalQuery,
        List.filter_cons, ih] <;>
      ring

/-- **C1** Cost conservation: after any sequence of record calls (in any
interleaving of kinds), `get_total_cost` equals the sum of the
`embedding_cost`, `vector_query_cost` and `lexical_query_cost` fields of
`get_cost_breakdown`, and each of those fields is the sum of the per-event
costs of its kind. -/
theorem cost_conservation (cfg : CostConfig) (ops : List LedgerOp) :
    let l := CostLogger.applyOps (CostLogger.init cfg) ops
    let bd := l.get_cost_breakdown
    l.get_total_cost = bd.embedding_cost + bd.vector_query_cost + bd.lexical_query_cost ∧
    bd.total_cost = l.get_total_cost ∧
    bd.embedding_cost = ((l.cost_logs.filter CostEvent.isEmbedding).map CostEvent.cost).sum ∧
    bd.vector_query_cost = ((l.cost_logs.filter CostEvent.isVectorQuery).map CostEvent.cost).sum ∧
    bd.lexical_query_cost = ((l.cost_logs.filter CostEvent.isLexicalQuery).map CostEvent.cost).sum := by
  refine ⟨?_, rfl, rfl, rfl, rfl⟩
  exact sum_cost_partition _

/-- The implicit state invariant tying counters and `compute_time` to the log. -/
def counters_invariant (l : CostLogger) : Prop :=
  l.embedding_calls = (l.cost_logs.filter CostEvent.isEmbedding).length ∧
  l.vector_queries = (l.cost_logs.filter CostEvent.isVectorQuery).length ∧
  l.lexical_queries = (l.cost_logs.filter CostEvent.isLexicalQuery).length ∧
  l.compute_time = (l.cost_logs.map CostEvent.vector_time).sum

lemma counters_invariant_init (cfg : CostConfig) :
    counters_invariant (CostLogger.init cfg) := by
  refine ⟨rfl, rfl, rfl, rfl⟩

lemma counters_invariant_apply (l : CostLogger) (op : LedgerOp)
    (h : counters_invariant l) : counters_invariant (l.apply op) := by
  obtain ⟨h1, h2, h3, h4⟩ := h
  cases op <;>
    simp [CostLogger.apply, CostLogger.log_embedding_call, CostLogger.log_vector_query,
      CostLogger.log_lexical_query, CostLogger.reset, counters_invariant,
      CostEvent.isEmbedding, CostEvent.isVectorQuery, CostEvent.isLexicalQuery,
      CostEvent.vector_time, List.filter_append, h1, h2, h3, h4]

lemma counters_invariant_applyOps (ops : List LedgerOp) :
    ∀ l : CostLogger, counters_invariant l → counters_invariant (l.applyOps ops) := by
  induction ops with
  | nil => intro l h; exact h
  | cons op rest ih =>
    intro l h
    exact ih (l.apply op) (counters_invariant_apply l op h)

/-- The five-rate pricing surface asserted by the spec ("Rates
(`embedding_rate`, `vector_base_rate`, `vector_time_multiplier`,
`lexical_base_rate`, `lexical_time_multiplier`) are configuration inputs").
This follows the spec's words, for comparison with the source,
whose `CostConfig` exposes only the three base rates. -/
structure FiveRateConfig where
  embedding_rate : ℚ
  vector_base_rate : ℚ
  vector_time_multiplier : ℚ
  lexical_base_rate : ℚ
  lexical_time_multiplier : ℚ
deriving DecidableEq

/-- Spec formula `(tokens / 1000) * embedding_rate`. -/
def FiveRateConfig.record_embedding_cost (c : FiveRateConfig) (tokens : ℤ) : ℚ :=
  ((tokens : ℚ) / 1000) * c.embedding_rate

/-- Spec formula `vector_base_rate + compute_time * vector_time_multiplier`. -/
def FiveRateConfig.record_vector_query_cost (c : FiveRateConfig) (compute_time : ℚ) : ℚ :=
  c.vector_base_rate + compute_time * c.vector_time_multiplier

/-- Spec formula `lexical_base_rate + latency * lexical_time_multiplier`. -/
def FiveRateConfig.record_lexical_query_cost (c : FiveRateConfig) (latency : ℚ) : ℚ :=
  c.lexical_base_rate + latency * c.lexical_time_multiplier

/-- The part of a five-rate configuration the source can actually receive:
its three env-loaded base rates. -/
def FiveRateConfig.toCodeConfig (c : FiveRateConfig) : CostConfig :=
  { embedding_cost_per_1k := c.embedding_rate
    vector_db_cost_per_query := c.vector_base_rate
    lexical_db_cost_per_query := c.lexical_base_rate }

/-- **C5 counterexample** The claim that the code realises the spec formula for
*every* configuration of the five rates is false: the time multipliers are the
hardcoded literals `0.00001` and `0.000001`, so a configuration with
`vector_time_multiplier = 1` disagrees with the code at `compute_time = 1`
(the code charges `1/100000`, the claimed formula `1`). -/
theorem pricing_config_counterexample :
    ¬ (∀ (c : FiveRateConfig) (t : ℚ), 0 ≤ t →
        ((CostLogger.init c.toCodeConfig).log_vector_query t).2 =
          c.record_vector_query_cost t) := by
  intro h
  have h1 := h ⟨0, 0, 1, 0, 0⟩ 1 (by norm_num)
  simp [CostLogger.init, CostLogger.log_vector_query, FiveRateConfig.toCodeConfig,
    FiveRateConfig.record_vector_query_cost] at h1

/-- **C5 amended** The pricing formulas hold with the two time multipliers
fixed at the source's literals: for every five-rate configuration whose
multipliers equal `0.00001` (vector) and `0.000001` (lexical), and every
input, the code's returned costs match the spec formulas; only the three
base rates are genuine configuration inputs. -/
theorem pricing_formulas (c : FiveRateConfig)
    (hv : c.vector_time_multiplier = 1 / 100000)
    (hl : c.lexical_time_multiplier = 1 / 1000000)
    (tokens : ℤ) (t lat : ℚ) :
    ((CostLogger.init c.toCodeConfig).log_embedding_call tokens).2 =
      c.record_embedding_cost tokens ∧
    ((CostLogger.init c.toCodeConfig).log_vector_query t).2 =
      c.record_vector_query_cost t ∧
    ((CostLogger.init c.toCodeConfig).log_lexical_query lat).2 =
      c.record_lexical_query_cost lat := by
  refine ⟨rfl, ?_, ?_⟩ <;>
    simp [CostLogger.init, CostLogger.log_vector_query, CostLogger.log_lexical_query,
      FiveRateConfig.toCodeConfig, FiveRateConfig.record_vector_query_cost,
      FiveRateConfig.record_lexical_query_cost, hv, hl]

/-- Witness for `pricing_formulas` at the source's default rates. -/
theorem pricing_formulas_witness :
    ((⟨1/10000, 1/100000, 1/100000, 1/1000000, 1/1000000⟩ : FiveRateConfig).vector_time_multiplier
        = 1 / 100000) ∧
    ((⟨1/10000, 1/100000, 1/100000, 1/1000000, 1/1000000⟩ : FiveRateConfig).lexical_time_multiplier
        = 1 / 1000000) ∧
    (((CostLogger.init (⟨1/10000, 1/100000, 1/100000, 1/1000000, 1/1000000⟩ :
          FiveRateConfig).toCodeConfig).log_embedding_call 1000).2 =
        (⟨1/10000, 1/100000, 1/100000, 1/1000000, 1/1000000⟩ :
          FiveRateConfig).record_embedding_cost 1000 ∧
      ((CostLogger.init (⟨1/10000, 1/100000, 1/100000, 1/1000000, 1/1000000⟩ :
          FiveRateConfig).toCodeConfig).log_vector_query (1/20)).2 =
        (⟨1/10000, 1/100000, 1/100000, 1/1000000, 1/1000000⟩ :
          FiveRateConfig).record_vector_query_cost (1/20) ∧
      ((CostLogger.init (⟨1/10000, 1/100000, 1/100000, 1/1000000, 1/1000000⟩ :
          FiveRateConfig).toCodeConfig).log_lexical_query (1/20)).2 =
        (⟨1/10000, 1/100000, 1/100000, 1/1000000, 1/1000000⟩ :
          FiveRateConfig).record_lexical_query_cost (1/20)) :=
  ⟨rfl, rfl, pricing_formulas _ rfl rfl 1000 (1/20) (1/20)⟩

/-- **C3 counterexample** There is no input validation: `log_embedding_call`
accepts a negative token count and appends an event whose cost is negative
(here `-1/10000` with the default embedding rate), so the claim that negative
inputs are rejected with a validation error, and that no call ever records a
negative cost, is false. -/
theorem negative_input_counterexample :
    (((CostLogger.init ⟨1/10000, 1/100000, 1/1000000⟩).log_embedding_call (-1000)).2
        = -(1/10000)) ∧
    (((CostLogger.init ⟨1/10000, 1/100000, 1/1000000⟩).log_embedding_call (-1000)).2 < 0) ∧
    (((CostLogger.init ⟨1/10000, 1/100000, 1/1000000⟩).log_embedding_call (-1000)).1.cost_logs
        = [CostEvent.embedding (-1000) (-(1/10000))]) := by
  refine ⟨by norm_num [CostLogger.init, CostLogger.log_embedding_call], ?_, ?_⟩ <;>
    norm_num [CostLogger.init, CostLogger.log_embedding_call]

/-- **C3 amended** The record operations are total and perform no validation:
every call (negative inputs included) appends exactly one event carrying the
returned cost. Non-negativity holds only conditionally: when the configured
rates and the inputs are non-negative, each returned (and recorded) cost is
non-negative. -/
theorem record_cost_nonneg (l : CostLogger) (tokens : ℤ) (t lat : ℚ)
    (hc1 : 0 ≤ l.config.embedding_cost_per_1k)
    (hc2 : 0 ≤ l.config.vector_db_cost_per_query)
    (hc3 : 0 ≤ l.config.lexical_db_cost_per_query)
    (htok : 0 ≤ tokens) (ht : 0 ≤ t) (hlat : 0 ≤ lat) :
    (0 ≤ (l.log_embedding_call tokens).2 ∧
      (l.log_embedding_call tokens).1.cost_logs =
        l.cost_logs ++ [.embedding tokens (l.log_embedding_call tokens).2]) ∧
    (0 ≤ (l.log_vector_query t).2 ∧
      (l.log_vector_query t).1.cost_logs =
        l.cost_logs ++ [.vector_query t (l.log_vector_query t).2]) ∧
    (0 ≤ (l.log_lexical_query lat).2 ∧
      (l.log_lexical_query lat).1.cost_logs =
        l.cost_logs ++ [.lexical_query lat (l.log_lexical_query lat).2]) := by
  refine ⟨⟨?_, rfl⟩, ⟨?_, rfl⟩, ⟨?_, rfl⟩⟩
  · exact mul_nonneg (by positivity) hc1
  · exact add_nonneg hc2 (by positivity)
  · exact add_nonneg hc3 (by positivity)

/-- Witness for `record_cost_nonneg` at the default rates and inputs
`tokens = 1000`, `t = lat = 1/20`. -/
theorem record_cost_nonneg_witness :
    ((0:ℚ) ≤ (CostLogger.init ⟨1/10000, 1/100000, 1/1000000⟩).config.embedding_cost_per_1k) ∧
    ((0:ℚ) ≤ (CostLogger.init ⟨1/10000, 1/100000, 1/1000000⟩).config.vector_db_cost_per_query) ∧
    ((0:ℚ) ≤ (CostLogger.init ⟨1/10000, 1/100000, 1/1000000⟩).config.lexical_db_cost_per_query) ∧
    ((0:ℤ) ≤ 1000) ∧ ((0:ℚ) ≤ 1/20) ∧
    ((0 ≤ ((CostLogger.init ⟨1/10000, 1/100000, 1/1000000⟩).log_embedding_call 1000).2 ∧
        ((CostLogger.init ⟨1/10000, 1/100000, 1/1000000⟩).log_embedding_call 1000).1.cost_logs =
          (CostLogger.init ⟨1/10000, 1/100000, 1/1000000⟩).cost_logs ++
            [.embedding 1000
              (((CostLogger.init ⟨1/10000, 1/100000, 1/1000000⟩).log_embedding_call 1000).2)]) ∧
      (0 ≤ ((CostLogger.init ⟨1/10000, 1/100000, 1/1000000⟩).log_vector_query (1/20)).2 ∧
        ((CostLogger.init ⟨1/10000, 1/100000, 1/1000000⟩).log_vector_query (1/20)).1.cost_logs =
          (CostLogger.init ⟨1/10000, 1/100000, 1/1000000⟩).cost_logs ++
            [.vector_query (1/20)
              (((CostLogger.init ⟨1/10000, 1/100000, 1/1000000⟩).log_vector_query (1/20)).2)]) ∧
      (0 ≤ ((CostLogger.init ⟨1/10000, 1/100000, 1/1000000⟩).log_lexical_query (1/20)).2 ∧
        ((CostLogger.init ⟨1/10000, 1/100000, 1/1000000⟩).log_lexical_query (1/20)).1.cost_logs =
          (CostLogger.init ⟨1/10000, 1/100000, 1/1000000⟩).cost_logs ++
            [.lexical_query (1/20)
              (((CostLogger.init ⟨1/10000, 1/100000, 1/1000000⟩).log_lexical_query (1/20)).2)])) :=
  ⟨by norm_num [CostLogger.init], by norm_num [CostLogger.init], by norm_num [CostLogger.init],
    by norm_num, by norm_num,
    record_cost_nonneg (CostLogger.init ⟨1/10000, 1/100000, 1/1000000⟩) 1000 (1/20) (1/20)
      (by norm_num [CostLogger.init]) (by norm_num [CostLogger.init])
      (by norm_num [CostLogger.init]) (by norm_num) (by norm_num) (by norm_num)⟩

/-- **C9** After any sequence of `log_embedding_call`, `log_vector_query`,
`log_lexical_query` and `reset` calls, each counter equals the number of
events of its kind in `cost_logs`, and `compute_time` (reported as
`total_compute_time` in the breakdown) is the sum of the compute times of
`vector_query` events only — lexical latencies never contribute
(`CostEvent.vector_time` is `0` on every non-vector event). -/
theorem counters_match_event_log (cfg : CostConfig) (ops : List LedgerOp) :
    let l := CostLogger.applyOps (CostLogger.init cfg) ops
    let bd := l.get_cost_breakdown
    bd.embedding_calls = (l.cost_logs.filter CostEvent.isEmbedding).length ∧
    bd.vector_queries = (l.cost_logs.filter CostEvent.isVectorQuery).length ∧
    bd.lexical_queries = (l.cost_logs.filter CostEvent.isLexicalQuery).length ∧
    bd.total_compute_time = (l.cost_logs.map CostEvent.vector_time).sum := by
  exact counters_invariant_applyOps ops (CostLogger.init cfg) (counters_invariant_init cfg)

/-- A search hit as returned by the backends, `{id, score, content}`;
`id` is the dedup key of hybrid fusion. -/
structure SearchHit where
  id : String
  score : ℚ
  content : String
deriving DecidableEq

/-- One pass of the fusion loop of `run_hybrid_search_benchmark.search_function`:
walk the hits in rank order, appending each hit whose id is not in `seen_ids`
and recording its id. State is `(combined, seen_ids)`. -/
def fuse_pass : List SearchHit × List String → List SearchHit → List SearchHit × List String
  | acc, [] => acc
  | (combined, seen), r :: rs =>
    if r.id ∈ seen then fuse_pass (combined, seen) rs
    else fuse_pass (combined ++ [r], r.id :: seen) rs

/-- The fusion of `run_hybrid_search_benchmark.search_function`: vector hits
first, then keyword hits, first-seen-wins dedup by id, truncated to 10. -/
def hybrid_fuse (vector_results keyword_results : List SearchHit) : List SearchHit :=
  (fuse_pass (fuse_pass ([], []) vector_results) keyword_results).1.take 10

lemma fuse_pass_append (l1 l2 : List SearchHit) :
    ∀ a : List SearchHit × List String,
      fuse_pass a (l1 ++ l2) = fuse_pass (fuse_pass a l1) l2 := by
  induction l1 with
  | nil => intro a; rfl
  | cons r rs ih =>
    intro a
    obtain ⟨comb, seen⟩ := a
    by_cases h : r.id ∈ seen <;> simp [fuse_pass, h, ih]

lemma fuse_pass_ids (l : List SearchHit) :
    ∀ (comb : List SearchHit) (seen : List String),
      comb.map SearchHit.id = seen.reverse →
      (fuse_pass (comb, seen) l).1.map SearchHit.id = (fuse_pass (comb, seen) l).2.reverse := by
  induction l with
  | nil => intro comb seen h; exact h
  | cons r rs ih =>
    intro comb seen h
    by_cases hm : r.id ∈ seen
    · simpa [fuse_pass, hm] using ih comb seen h
    · simpa [fuse_pass, hm] using ih (comb ++ [r]) (r.id :: seen) (by simp [h])

lemma fuse_pass_seen_nodup (l : List SearchHit) :
    ∀ (comb : List SearchHit) (seen : List String),
      seen.Nodup → (fuse_pass (comb, seen) l).2.Nodup := by
  induction l with
  | nil => intro comb seen h; exact h
  | cons r rs ih =>
    intro comb seen h
    by_cases hm : r.id ∈ seen
    · simpa [fuse_pass, hm] using ih comb seen h
    · simpa [fuse_pass, hm] using ih (comb ++ [r]) (r.id :: seen) (by simp [h, hm])

lemma fuse_pass_seen_toFinset (l : List SearchHit) :
    ∀ (comb : List SearchHit) (seen : List String),
      (fuse_pass (comb, seen) l).2.toFinset = seen.toFinset ∪ (l.map SearchHit.id).toFinset := by
  induction l with
  | nil => intro comb seen; simp [fuse_pass]
  | cons r rs ih =>
    intro comb seen
    by_cases hm : r.id ∈ seen
    · rw [show fuse_pass (comb, seen) (r :: rs) = fuse_pass (comb, seen) rs by
        simp [fuse_pass, hm]]
      rw [ih]
      have hmem : r.id ∈ seen.toFinset ∪ (rs.map SearchHit.id).toFinset :=
        Finset.mem_union_left _ (List.mem_toFinset.2 hm)
      simp [List.toFinset_cons, Finset.union_insert, Finset.insert_eq_self.2 hmem]
    · rw [show fuse_pass (comb, seen) (r :: rs) = fuse_pass (comb ++ [r], r.id :: seen) rs by
        simp [fuse_pass, hm]]
      rw [ih]
      simp [List.toFinset_cons, Finset.insert_union, Finset.union_insert]

lemma fuse_pass_length_card (l : List SearchHit) :
    (fuse_pass ([], []) l).1.length = ((l.map SearchHit.id).toFinset).card := by
  have hids := fuse_pass_ids l [] [] rfl
  have hnd := fuse_pass_seen_nodup l [] [] List.nodup_nil
  have hfs := fuse_pass_seen_toFinset l [] []
  have h1 : (fuse_pass ([], []) l).1.length = (fuse_pass ([], []) l).2.length := by
    have := congrArg List.length hids
    simpa using this
  rw [h1, ← List.toFinset_card_of_nodup hnd, hfs]
  simp

/-- **C2** Hybrid fusion: the fused output is the first-seen-wins union of the
vector hits followed by the lexical hits (one dedup pass over their
concatenation), its ids are duplicate-free, its length is
`min 10 (number of distinct ids)`; and on the spec's example — vector hits
`[A,B,C]`, lexical hits `[B,D,E]` — it returns `[A,B,C,D,E]` keeping the
vector-ranked copy of `B`. -/
theorem hybrid_fusion_correct :
    (∀ v k : List SearchHit,
      hybrid_fuse v k = (fuse_pass ([], []) (v ++ k)).1.take 10 ∧
      ((hybrid_fuse v k).map SearchHit.id).Nodup ∧
      (hybrid_fuse v k).length = min 10 (((v ++ k).map SearchHit.id).toFinset.card)) ∧
    hybrid_fuse
        [⟨"A", 9, "docA"⟩, ⟨"B", 8, "docB"⟩, ⟨"C", 7, "docC"⟩]
        [⟨"B", 6, "docB2"⟩, ⟨"D", 5, "docD"⟩, ⟨"E", 4, "docE"⟩] =
      [⟨"A", 9, "docA"⟩, ⟨"B", 8, "docB"⟩, ⟨"C", 7, "docC"⟩,
        ⟨"D", 5, "docD"⟩, ⟨"E", 4, "docE"⟩] := by
  constructor
  · intro v k
    have hsplit : hybrid_fuse v k = (fuse_pass ([], []) (v ++ k)).1.take 10 := by
      rw [hybrid_fuse, fuse_pass_append]
    refine ⟨hsplit, ?_, ?_⟩
    · rw [hsplit, List.map_take]
      have hids := fuse_pass_ids (v ++ k) [] [] rfl
      rw [hids]
      exact ((List.take_sublist _ _).nodup
        (List.nodup_reverse.2 (fuse_pass_seen_nodup (v ++ k) [] [] List.nodup_nil)))
    · rw [hsplit, List.length_take, fuse_pass_length_card]
  · decide

/-- `tokens=len(query.split()) * 100` of `run_benchmark.py`: word count of the
query (whitespace split, empty pieces dropped) times 100. -/
def tokens_estimate (query : String) : ℤ :=
  ((((query.split fun c => c.isWhitespace).filter fun s => !s.isEmpty).length : ℕ) : ℤ) * 100

/-- Environment of one hybrid `search_function` invocation: what each backend
returned and how long each call took (wall-clock measurements are inputs). -/
structure HybridEnv where
  keyword_results : List SearchHit
  keyword_time : ℚ
  vector_results : List SearchHit
  vector_time : ℚ

/-- `run_hybrid_search_benchmark.search_function`: log the embedding call,
query the lexical backend and log it, query the vector backend and log it,
then fuse (vector hits first). -/
def hybrid_search_call (cost_logger : CostLogger) (query : String) (env : HybridEnv) :
    CostLogger × List SearchHit :=
  let l1 := (cost_logger.log_embedding_call (tokens_estimate query)).1
  let l2 := (l1.log_lexical_query env.keyword_time).1
  let l3 := (l2.log_vector_query env.vector_time).1
  (l3, hybrid_fuse env.vector_results env.keyword_results)

/-- The `"type"` tag alone. -/
inductive EventKind where
  | embedding
  | vector_query
  | lexical_query
deriving DecidableEq

/-- Kind of a log entry. -/
def CostEvent.kind : CostEvent → EventKind
  | .embedding _ _ => .embedding
  | .vector_query _ _ => .vector_query
  | .lexical_query _ _ => .lexical_query

/-- **C4 counterexample** On a concrete hybrid invocation the three appended
events are Embedding, then LexicalQuery, then VectorQuery — not the claimed
Embedding, VectorQuery, LexicalQuery: the code queries and logs the lexical
backend *before* the vector backend. -/
theorem hybrid_event_order_counterexample :
    ((hybrid_search_call (CostLogger.init ⟨1/10000, 1/100000, 1/1000000⟩) "test query"
          ⟨[], 1, [], 2⟩).1.cost_logs.map CostEvent.kind =
        [EventKind.embedding, EventKind.lexical_query, EventKind.vector_query]) ∧
    ¬ ((hybrid_search_call (CostLogger.init ⟨1/10000, 1/100000, 1/1000000⟩) "test query"
          ⟨[], 1, [], 2⟩).1.cost_logs.map CostEvent.kind =
        [EventKind.embedding, EventKind.vector_query, EventKind.lexical_query]) := by
  have h1 : (hybrid_search_call (CostLogger.init ⟨1/10000, 1/100000, 1/1000000⟩) "test query"
        ⟨[], 1, [], 2⟩).1.cost_logs.map CostEvent.kind =
      [EventKind.embedding, EventKind.lexical_query, EventKind.vector_query] := by
    simp [hybrid_search_call, CostLogger.init, CostLogger.log_embedding_call,
      CostLogger.log_lexical_query, CostLogger.log_vector_query, CostEvent.kind]
  exact ⟨h1, by rw [h1]; decide⟩

/-- **C4 amended** Each hybrid `search_function` invocation appends exactly
three events to its ledger, in this order: one Embedding event, then one
LexicalQuery event (recorded after calling the lexical backend), then one
VectorQuery event (recorded after calling the vector backend) — the lexical
backend is consulted first, the vector backend second. -/
theorem hybrid_ledger_event_order (lg : CostLogger) (query : String) (env : HybridEnv) :
    (hybrid_search_call lg query env).1.cost_logs =
      lg.cost_logs ++
        [CostEvent.embedding (tokens_estimate query)
            (((tokens_estimate query : ℚ)) / 1000 * lg.config.embedding_cost_per_1k),
          CostEvent.lexical_query env.keyword_time
            (lg.config.lexical_db_cost_per_query + env.keyword_time * (1 / 1000000)),
          CostEvent.vector_query env.vector_time
            (lg.config.vector_db_cost_per_query + env.vector_time * (1 / 100000))] := by
  simp [hybrid_search_call, CostLogger.log_embedding_call, CostLogger.log_lexical_query,
    CostLogger.log_vector_query]

/-- The `"content"` value of a search-result dict in
`AccuracyEvaluator.evaluate_search_method`: either itself a dict with optional
`"content"` / `"title"` string fields, or a non-dict value whose
stringification is used directly. -/
inductive ResultContent where
  | dict (content : Option String) (title : Option String)
  | prim (s : String)
deriving DecidableEq

/-- One element of the list a search function returns: a dict with an optional
`"content"` key (missing key defaults to `{}`), or a non-dict entry, which the
context-extraction loop skips. -/
inductive PyResult where
  | dict (content : Option ResultContent)
  | nonDict
deriving DecidableEq

/-- `content.get("content", content.get("title", ""))` when `content` is a
dict, `str(content)` otherwise. -/
def extract_text : ResultContent → String
  | .dict c t => c.getD (t.getD "")
  | .prim s => s

/-- The context-extraction loop: walk the top 5 results, keep dict entries,
read their content text. -/
def extract_contexts (search_results : List PyResult) : List String :=
  (search_results.take 5).filterMap fun r =>
    match r with
    | .dict c => some (extract_text (c.getD (.dict none none)))
    | .nonDict => none

/-- An `LLMTestCase` as built by `AccuracyEvaluator.evaluate_query`. -/
structure TestCase where
  input : String
  actual_output : String
  retrieval_context : List String
deriving DecidableEq

/-- The externally supplied scoring capability: each metric's `measure` either
returns a score or raises (modelled as `none`, the swallowed exception). -/
structure ScoringCapability where
  faithfulness : TestCase → Option ℚ
  relevancy : TestCase → Option ℚ

/-- Defaulting of `expected_output` in `evaluate_query`: first retrieved
context if any, else the fixed sentinel. -/
def default_expected (retrieved_contexts : List String) : Option String → String
  | some e => e
  | none =>
    match retrieved_contexts with
    | c :: _ => c
    | [] => "No relevant information found."

/-- The test case `evaluate_query` hands to both metrics. -/
def mk_test_case (query : String) (retrieved_contexts : List String)
    (expected_output : Option String) : TestCase :=
  { input := query
    actual_output := default_expected retrieved_contexts expected_output
    retrieval_context := retrieved_contexts }

/-- The dictionary returned by `AccuracyEvaluator.evaluate_query`. -/
structure QueryEvaluation where
  query : String
  faithfulness_score : ℚ
  relevancy_score : ℚ
  evaluation_time : ℚ
  num_contexts : ℕ
deriving DecidableEq

/-- `AccuracyEvaluator.evaluate_query`: score both dimensions on the same test
case, each call isolated — a raised exception (`none`) becomes a `0.0` score. -/
def evaluate_query (o : ScoringCapability) (query : String)
    (retrieved_contexts : List String) (expected_output : Option String)
    (evaluation_time : ℚ) : QueryEvaluation :=
  let tc := mk_test_case query retrieved_contexts expected_output
  { query := query
    faithfulness_score := (o.faithfulness tc).getD 0
    relevancy_score := (o.relevancy tc).getD 0
    evaluation_time := evaluation_time
    num_contexts := retrieved_contexts.length }

/-- One test query of `evaluate_search_method` together with the environment
of its processing: what the search function returned and the measured times. -/
structure TestQueryRun where
  query : String
  expected : Option String
  search_results : List PyResult
  search_time : ℚ
  evaluation_time : ℚ
deriving DecidableEq

/-- An `eval_result` dict after `eval_result["search_time"] = search_time`. -/
structure QueryResult where
  query : String
  faithfulness_score : ℚ
  relevancy_score : ℚ
  evaluation_time : ℚ
  num_contexts : ℕ
  search_time : ℚ
deriving DecidableEq

/-- The dictionary returned by `AccuracyEvaluator.evaluate_search_method`. -/
structure MethodResult where
  method_name : String
  num_queries : ℕ
  avg_faithfulness : ℚ
  avg_relevancy : ℚ
  avg_search_time : ℚ
  total_time : ℚ
  detailed_results : List QueryResult
deriving DecidableEq

/-- Loop body of `evaluate_search_method` for one test query. -/
def run_query (o : ScoringCapability) (tq : TestQueryRun) : QueryResult :=
  let contexts := extract_contexts tq.search_results
  let er := evaluate_query o tq.query contexts tq.expected tq.evaluation_time
  { query := er.query
    faithfulness_score := er.faithfulness_score
    relevancy_score := er.relevancy_score
    evaluation_time := er.evaluation_time
    num_contexts := er.num_contexts
    search_time := tq.search_time }

/-- The test case the loop builds for a given test query. -/
def test_case_of (tq : TestQueryRun) : TestCase :=
  mk_test_case tq.query (extract_contexts tq.search_results) tq.expected

/-- `AccuracyEvaluator.evaluate_search_method`: per-query loop, then the
aggregation (`X if results else 0` averages, summed total time). -/
def evaluate_search_method (o : ScoringCapability) (test_queries : List TestQueryRun)
    (method_name : String) : MethodResult :=
  let results := test_queries.map (run_query o)
  { method_name := method_name
    num_queries := test_queries.length
    avg_faithfulness :=
      if results.isEmpty then 0
      else (results.map fun r => r.faithfulness_score).sum / (results.length : ℚ)
    avg_relevancy :=
      if results.isEmpty then 0
      else (results.map fun r => r.relevancy_score).sum / (results.length : ℚ)
    avg_search_time :=
      if results.isEmpty then 0
      else (results.map fun r => r.search_time).sum / (results.length : ℚ)
    total_time := (results.map fun r => r.search_time + r.evaluation_time).sum
    detailed_results := results }

/-- **C8** On an empty query list `evaluate_search_method` returns zero
averages and `num_queries = 0` (the empty-branch of each average, no division
performed). -/
theorem empty_query_set (o : ScoringCapability) (m : String) :
    (evaluate_search_method o [] m).avg_faithfulness = 0 ∧
    (evaluate_search_method o [] m).avg_relevancy = 0 ∧
    (evaluate_search_method o [] m).avg_search_time = 0 ∧
    (evaluate_search_method o [] m).num_queries = 0 ∧
    (evaluate_search_method o [] m).total_time = 0 ∧
    (evaluate_search_method o [] m).detailed_results = [] :=
  ⟨rfl, rfl, rfl, rfl, rfl, rfl⟩

/-- **C7** Aggregation: on a non-empty query list, the three averages are
arithmetic means of the per-query scores and search times over all evaluated
queries, `total_time` is the sum of every query's `search_time +
evaluation_time`, and `num_queries` is the number of input queries. -/
theorem aggregation_correct (o : ScoringCapability) (tqs : List TestQueryRun)
    (m : String) (h : tqs ≠ []) :
    let R := evaluate_search_method o tqs m
    R.num_queries = tqs.length ∧
    R.detailed_results.length = tqs.length ∧
    R.avg_faithfulness =
      (R.detailed_results.map fun r => r.faithfulness_score).sum /
        (R.detailed_results.length : ℚ) ∧
    R.avg_relevancy =
      (R.detailed_results.map fun r => r.relevancy_score).sum /
        (R.detailed_results.length : ℚ) ∧
    R.avg_search_time =
      (R.detailed_results.map fun r => r.search_time).sum /
        (R.detailed_results.length : ℚ) ∧
    R.total_time =
      (R.detailed_results.map fun r => r.search_time + r.evaluation_time).sum := by
  have hne : (tqs.map (run_query o)).isEmpty = false := by
    cases tqs with
    | nil => exact absurd rfl h
    | cons a l => rfl
  refine ⟨rfl, by simp [evaluate_search_method], ?_, ?_, ?_, rfl⟩ <;>
    simp [evaluate_search_method, hne]

/-- Witness for `aggregation_correct` on a single-query list with an
always-succeeding scoring capability. -/
theorem aggregation_correct_witness :
    ([(⟨"q1", none, [], 0, 1⟩ : TestQueryRun)] ≠ []) ∧
    (let R := evaluate_search_method ⟨fun _ => some 1, fun _ => some 1⟩
        [(⟨"q1", none, [], 0, 1⟩ : TestQueryRun)] "method"
     R.num_queries = [(⟨"q1", none, [], 0, 1⟩ : TestQueryRun)].length ∧
     R.detailed_results.length = [(⟨"q1", none, [], 0, 1⟩ : TestQueryRun)].length ∧
     R.avg_faithfulness =
       (R.detailed_results.map fun r => r.faithfulness_score).sum /
         (R.detailed_results.length : ℚ) ∧
     R.avg_relevancy =
       (R.detailed_results.map fun r => r.relevancy_score).sum /
         (R.detailed_results.length : ℚ) ∧
     R.avg_search_time =
       (R.detailed_results.map fun r => r.search_time).sum /
         (R.detailed_results.length : ℚ) ∧
     R.total_time =
       (R.detailed_results.map fun r => r.search_time + r.evaluation_time).sum) :=
  ⟨by simp,
    aggregation_correct ⟨fun _ => some 1, fun _ => some 1⟩
      [(⟨"q1", none, [], 0, 1⟩ : TestQueryRun)] "method" (by simp)⟩

/-- The two quality dimensions scored per query. -/
inductive ScoreDim where
  | faithfulness
  | relevancy
deriving DecidableEq

/-- Project the metric of one dimension out of a scoring capability. -/
def ScoringCapability.dim (o : ScoringCapability) : ScoreDim → TestCase → Option ℚ
  | .faithfulness => o.faithfulness
  | .relevancy => o.relevancy

/-- The opposite dimension. -/
def ScoreDim.other : ScoreDim → ScoreDim
  | .faithfulness => .relevancy
  | .relevancy => .faithfulness

/-- Zero out one dimension's score in a per-query record. -/
def QueryResult.zero_dim (r : QueryResult) : ScoreDim → QueryResult
  | .faithfulness => { r with faithfulness_score := 0 }
  | .relevancy => { r with relevancy_score := 0 }

/-- **C6** Scoring-failure isolation: if the scoring call of either dimension
(faithfulness or relevancy) raises on exactly one query, while the other
dimension's capability is unchanged, the method result still covers every
query, that query's failing dimension scores `0` while the rest of its
record — the other dimension's score included — matches the non-failing run,
and every other query's record is unaffected. -/
theorem scoring_failure_isolation (o o2 : ScoringCapability) (tqs : List TestQueryRun)
    (m : String) (k : ℕ) (tq : TestQueryRun) (d : ScoreDim)
    (htq : tqs.get? k = some tq)
    (hfail : o2.dim d (test_case_of tq) = none)
    (hsame : o2.dim d.other = o.dim d.other)
    (hoth : ∀ j tq2, j ≠ k → tqs.get? j = some tq2 →
      o2.dim d (test_case_of tq2) = o.dim d (test_case_of tq2)) :
    (evaluate_search_method o2 tqs m).num_queries = tqs.length ∧
    (evaluate_search_method o2 tqs m).detailed_results.length = tqs.length ∧
    (evaluate_search_method o2 tqs m).detailed_results.get? k =
      some ((run_query o tq).zero_dim d) ∧
    (∀ j, j ≠ k → (evaluate_search_method o2 tqs m).detailed_results.get? j =
      (evaluate_search_method o tqs m).detailed_results.get? j) := by
  cases d with
  | faithfulness =>
    simp only [ScoringCapability.dim, ScoreDim.other] at hfail hsame hoth
    have hfail2 : o2.faithfulness
        (mk_test_case tq.query (extract_contexts tq.search_results) tq.expected) = none := hfail
    refine ⟨rfl, by simp [evaluate_search_method], ?_, ?_⟩
    · show (tqs.map (run_query o2)).get? k = some ((run_query o tq).zero_dim .faithfulness)
      rw [List.get?_map, htq]
      simp [Option.map_some, run_query, evaluate_query, QueryResult.zero_dim, hfail2, hsame]
    · intro j hj
      show (tqs.map (run_query o2)).get? j = (tqs.map (run_query o)).get? j
      rw [List.get?_map, List.get?_map]
      cases hg : tqs.get? j with
      | none => rfl
      | some tq2 =>
        have h2 : o2.faithfulness
            (mk_test_case tq2.query (extract_contexts tq2.search_results) tq2.expected) =
            o.faithfulness
              (mk_test_case tq2.query (extract_contexts tq2.search_results) tq2.expected) :=
          hoth j tq2 hj hg
        simp [run_query, evaluate_query, h2, hsame]
  | relevancy =>
    simp only [ScoringCapability.dim, ScoreDim.other] at hfail hsame hoth
    have hfail2 : o2.relevancy
        (mk_test_case tq.query (extract_contexts tq.search_results) tq.expected) = none := hfail
    refine ⟨rfl, by simp [evaluate_search_method], ?_, ?_⟩
    · show (tqs.map (run_query o2)).get? k = some ((run_query o tq).zero_dim .relevancy)
      rw [List.get?_map, htq]
      simp [Option.map_some, run_query, evaluate_query, QueryResult.zero_dim, hfail2, hsame]
    · intro j hj
      show (tqs.map (run_query o2)).get? j = (tqs.map (run_query o)).get? j
      rw [List.get?_map, List.get?_map]
      cases hg : tqs.get? j with
      | none => rfl
      | some tq2 =>
        have h2 : o2.relevancy
            (mk_test_case tq2.query (extract_contexts tq2.search_results) tq2.expected) =
            o.relevancy
              (mk_test_case tq2.query (extract_contexts tq2.search_results) tq2.expected) :=
          hoth j tq2 hj hg
        simp [run_query, evaluate_query, h2, hsame]

/-- Scoring capability that succeeds everywhere with score `1`. -/
def ok_capability : ScoringCapability :=
  ⟨fun _ => some 1, fun _ => some 1⟩

/-- Scoring capability whose faithfulness metric raises exactly on the test
case of query `"q1"`. -/
def failing_capability : ScoringCapability :=
  ⟨fun tc => if tc.input = "q1" then none else some 1, fun _ => some 1⟩

/-- Scoring capability whose relevancy metric raises exactly on the test
case of query `"q1"`. -/
def failing_rel_capability : ScoringCapability :=
  ⟨fun _ => some 1, fun tc => if tc.input = "q1" then none else some 1⟩

/-- Two-query run list for the isolation witness. -/
def witness_runs : List TestQueryRun :=
  [⟨"q1", none, [], 0, 1⟩, ⟨"q2", none, [], 0, 1⟩]

/-- Witness for `scoring_failure_isolation`, exercising both dimensions: two
queries, relevancy scoring failing on the first (first instance), and
faithfulness scoring failing on the first (second instance). -/
theorem scoring_failure_isolation_witness :
    ((witness_runs.get? 0 = some ⟨"q1", none, [], 0, 1⟩) ∧
      (failing_rel_capability.dim ScoreDim.relevancy
        (test_case_of ⟨"q1", none, [], 0, 1⟩) = none) ∧
      (failing_rel_capability.dim (ScoreDim.other ScoreDim.relevancy) =
        ok_capability.dim (ScoreDim.other ScoreDim.relevancy)) ∧
      (∀ j tq2, j ≠ 0 → witness_runs.get? j = some tq2 →
        failing_rel_capability.dim ScoreDim.relevancy (test_case_of tq2) =
          ok_capability.dim ScoreDim.relevancy (test_case_of tq2)) ∧
      ((evaluate_search_method failing_rel_capability witness_runs "method").num_queries =
          witness_runs.length ∧
        (evaluate_search_method failing_rel_capability witness_runs
            "method").detailed_results.length = witness_runs.length ∧
        (evaluate_search_method failing_rel_capability witness_runs
            "method").detailed_results.get? 0 =
          some ((run_query ok_capability ⟨"q1", none, [], 0, 1⟩).zero_dim
            ScoreDim.relevancy) ∧
        (∀ j, j ≠ 0 →
          (evaluate_search_method failing_rel_capability witness_runs
            "method").detailed_results.get? j =
          (evaluate_search_method ok_capability witness_runs
            "method").detailed_results.get? j))) ∧
    ((failing_capability.dim ScoreDim.faithfulness
        (test_case_of ⟨"q1", none, [], 0, 1⟩) = none) ∧
      (failing_capability.dim (ScoreDim.other ScoreDim.faithfulness) =
        ok_capability.dim (ScoreDim.other ScoreDim.faithfulness)) ∧
      (∀ j tq2, j ≠ 0 → witness_runs.get? j = some tq2 →
        failing_capability.dim ScoreDim.faithfulness (test_case_of tq2) =
          ok_capability.dim ScoreDim.faithfulness (test_case_of tq2)) ∧
      ((evaluate_search_method failing_capability witness_runs "method").num_queries =
          witness_runs.length ∧
        (evaluate_search_method failing_capability witness_runs
            "method").detailed_results.length = witness_runs.length ∧
        (evaluate_search_method failing_capability witness_runs
            "method").detailed_results.get? 0 =
          some ((run_query ok_capability ⟨"q1", none, [], 0, 1⟩).zero_dim
            ScoreDim.faithfulness) ∧
        (∀ j, j ≠ 0 →
          (evaluate_search_method failing_capability witness_runs
            "method").detailed_results.get? j =
          (evaluate_search_method ok_capability witness_runs
            "method").detailed_results.get? j))) :=
  ⟨⟨rfl, rfl, rfl,
    fun j tq2 hj hget => by
      rcases j with _ | _ | n
      · exact absurd rfl hj
      · obtain rfl : tq2 = ⟨"q2", none, [], 0, 1⟩ := by
          simpa [witness_runs] using hget.symm
        rfl
      · simp [witness_runs] at hget,
    scoring_failure_isolation ok_capability failing_rel_capability witness_runs "method" 0
      ⟨"q1", none, [], 0, 1⟩ ScoreDim.relevancy rfl rfl rfl
      (fun j tq2 hj hget => by
        rcases j with _ | _ | n
        · exact absurd rfl hj
        · obtain rfl : tq2 = ⟨"q2", none, [], 0, 1⟩ := by
            simpa [witness_runs] using hget.symm
          rfl
        · simp [witness_runs] at hget)⟩,
   ⟨rfl, rfl,
    fun j tq2 hj hget => by
      rcases j with _ | _ | n
      · exact absurd rfl hj
      · obtain rfl : tq2 = ⟨"q2", none, [], 0, 1⟩ := by
          simpa [witness_runs] using hget.symm
        rfl
      · simp [witness_runs] at hget,
    scoring_failure_isolation ok_capability failing_capability witness_runs "method" 0
      ⟨"q1", none, [], 0, 1⟩ ScoreDim.faithfulness rfl rfl rfl
      (fun j tq2 hj hget => by
        rcases j with _ | _ | n
        · exact absurd rfl hj
        · obtain rfl : tq2 = ⟨"q2", none, [], 0, 1⟩ := by
            simpa [witness_runs] using hget.symm
          rfl
        · simp [witness_runs] at hget)⟩⟩

/-- Bool substring test on char lists: does `sub` occur contiguously in the
first argument (Python's `sub in s`)? -/
def char_list_has : List Char → List Char → Bool
  | [], sub => sub.isEmpty
  | a :: t, sub => sub.isPrefixOf (a :: t) || char_list_has t sub

/-- Python's `str.lower()` (per-character lowering). -/
def py_lower (s : String) : String := ⟨s.data.map Char.toLower⟩

/-- Python's `sub in s` on strings. -/
def py_contains (s sub : String) : Bool := char_list_has s.data sub.data

/-- The dictionary returned by `HybridSearchCostTracker.track_search_method`. -/
structure TrackResult where
  method_name : String
  results : List SearchHit
  cost_breakdown : CostBreakdown
  execution_time : ℚ

/-- State of a `HybridSearchCostTracker`: its own logger (unused by
`track_search_method`, which creates a fresh one per call) and the
`method_costs` dict. -/
structure HybridSearchCostTracker where
  cost_logger : CostLogger
  method_costs : String → Option CostBreakdown

/-- `HybridSearchCostTracker.track_search_method`: create a fresh
`CostLogger`, branch on the lowercased method name — vector/qdrant logs an
embedding plus a vector query, keyword/elasticsearch logs a lexical query,
anything else logs nothing — run the search, store and return the fresh
logger's breakdown. `elapsed` is the wall-clock measurement. -/
def HybridSearchCostTracker.track_search_method (tr : HybridSearchCostTracker)
    (cfg : CostConfig) (method_name : String) (search_function : String → List SearchHit)
    (query : String) (embedding_tokens : ℤ) (elapsed : ℚ) :
    HybridSearchCostTracker × TrackResult :=
  let name := py_lower method_name
  let method_logger := CostLogger.init cfg
  let method_logger :=
    if py_contains name "vector" || py_contains name "qdrant" then
      ((method_logger.log_embedding_call embedding_tokens).1.log_vector_query elapsed).1
    else if py_contains name "keyword" || py_contains name "elasticsearch" then
      (method_logger.log_lexical_query elapsed).1
    else
      method_logger
  let results := search_function query
  let bd := method_logger.get_cost_breakdown
  ({ tr with
      method_costs := fun n => if n = method_name then some bd else tr.method_costs n },
   { method_name := method_name
     results := results
     cost_breakdown := bd
     execution_time := elapsed })

/-- **C10** Unrecognized method names: when the lowercased method name
contains none of `"vector"`, `"qdrant"`, `"keyword"`, `"elasticsearch"`, the
search still runs (its hits are returned) but no cost event is recorded, so
both the returned and the stored breakdown are all-zero. -/
theorem unrecognized_method_zero_cost (tr : HybridSearchCostTracker) (cfg : CostConfig)
    (method_name : String) (sf : String → List SearchHit) (query : String)
    (embedding_tokens : ℤ) (elapsed : ℚ)
    (h1 : py_contains (py_lower method_name) "vector" = false)
    (h2 : py_contains (py_lower method_name) "qdrant" = false)
    (h3 : py_contains (py_lower method_name) "keyword" = false)
    (h4 : py_contains (py_lower method_name) "elasticsearch" = false) :
    ((tr.track_search_method cfg method_name sf query embedding_tokens elapsed).2.cost_breakdown =
      ⟨0, 0, 0, 0, 0, 0, 0, 0⟩) ∧
    ((tr.track_search_method cfg method_name sf query embedding_tokens elapsed).2.results =
      sf query) ∧
    ((tr.track_search_method cfg method_name sf query embedding_tokens
        elapsed).1.method_costs method_name = some ⟨0, 0, 0, 0, 0, 0, 0, 0⟩) := by
  simp [HybridSearchCostTracker.track_search_method, h1, h2, h3, h4,
    CostLogger.get_cost_breakdown, CostLogger.get_total_cost, CostLogger.init]

/-- Witness for `unrecognized_method_zero_cost` at method name `"Hybrid"`. -/
theorem unrecognized_method_zero_cost_witness :
    (py_contains (py_lower "Hybrid") "vector" = false) ∧
    (py_contains (py_lower "Hybrid") "qdrant" = false) ∧
    (py_contains (py_lower "Hybrid") "keyword" = false) ∧
    (py_contains (py_lower "Hybrid") "elasticsearch" = false) ∧
    ((((⟨CostLogger.init ⟨1/10000, 1/100000, 1/1000000⟩, fun _ => none⟩ :
          HybridSearchCostTracker).track_search_method ⟨1/10000, 1/100000, 1/1000000⟩
          "Hybrid" (fun _ => []) "test query" 1000 1).2.cost_breakdown =
        ⟨0, 0, 0, 0, 0, 0, 0, 0⟩) ∧
      (((⟨CostLogger.init ⟨1/10000, 1/100000, 1/1000000⟩, fun _ => none⟩ :
          HybridSearchCostTracker).track_search_method ⟨1/10000, 1/100000, 1/1000000⟩
          "Hybrid" (fun _ => []) "test query" 1000 1).2.results =
        (fun _ => ([] : List SearchHit)) "test query") ∧
      (((⟨CostLogger.init ⟨1/10000, 1/100000, 1/1000000⟩, fun _ => none⟩ :
          HybridSearchCostTracker).track_search_method ⟨1/10000, 1/100000, 1/1000000⟩
          "Hybrid" (fun _ => []) "test query" 1000 1).1.method_costs "Hybrid" =
        some ⟨0, 0, 0, 0, 0, 0, 0, 0⟩)) :=
  ⟨by decide, by decide, by decide, by decide,
    unrecognized_method_zero_cost
      ⟨CostLogger.init ⟨1/10000, 1/100000, 1/1000000⟩, fun _ => none⟩
      ⟨1/10000, 1/100000, 1/1000000⟩ "Hybrid" (fun _ => []) "test query" 1000 1
      (by decide) (by decide) (by decide) (by decide)⟩
